import Mathlib

/-!
Shallow embedding of the HC Self-Service Portal backend (`src/Webapp.gs`).

The backend interprets a flat master table of records (PROGRAM, REGISTER,
REGFORM, REQUEST rows) with `Valid_From`/`Valid_Till` date windows, verifies
emails against an external registration sheet, and appends accepted
submissions to an output sheet.  JavaScript `Date` values are modelled at
day-plus-time granularity; the JS "Invalid Date" (NaN) produced by an
unparsable date string is modelled explicitly, since every comparison
against NaN is false in JavaScript.  External effects (reading the master
sheet, fetching a registration sheet, the reCAPTCHA round-trip, the output
sheet) are passed in as explicit parameters: an `Except` value for a read
that can throw, an oracle function for the reCAPTCHA verdict, and the
returned list of appended rows for the output sheet.
-/

namespace Portal

/-- A JavaScript `Date`: a day index (days since epoch, may be negative) and
a time-of-day component in milliseconds.  `setHours(0,0,0,0)` zeroes the
time component. -/
structure JSDate where
  day : Int
  ms : Int
deriving DecidableEq, Repr

/-- `d.setHours(0, 0, 0, 0)`: normalize to midnight. -/
def setMidnight (d : JSDate) : JSDate := ⟨d.day, 0⟩

/-- JavaScript `<` on two (non-NaN) dates: lexicographic on (day, time). -/
def jdLtB (a b : JSDate) : Bool :=
  decide (a.day < b.day) || (a.day == b.day && decide (a.ms < b.ms))

/-- A JS date value that may be Invalid Date (`none` = NaN, as produced by
`new Date(<unparsable string>)`). -/
abbrev DateVal := Option JSDate

/-- JS `>` on date values: any comparison involving NaN is false. -/
def dvGt (a b : DateVal) : Bool :=
  match a, b with
  | some x, some y => jdLtB y x
  | _, _ => false

/-- JS `<` on date values: any comparison involving NaN is false. -/
def dvLt (a b : DateVal) : Bool :=
  match a, b with
  | some x, some y => jdLtB x y
  | _, _ => false

/-- `setHours(0,0,0,0)` on a date value; Invalid Date stays Invalid. -/
def dvSetMidnight (a : DateVal) : DateVal := a.map setMidnight

/-- A `Valid_From` / `Valid_Till` cell of the master sheet as seen by
`isRecordValid`: blank (null or empty string, falsy in JS), a well-formed
date (a Date object, or a string the platform parser accepts, already
parsed), or a non-blank string the platform parser rejects (for which
`new Date(s)` yields Invalid Date). -/
inductive DateCell where
  | empty
  | wellFormed (d : JSDate)
  | malformed (s : String)
deriving DecidableEq, Repr

/-- JS truthiness of a date cell: null/blank is falsy, a Date object is
truthy, a string is truthy iff non-empty. -/
def DateCell.truthy : DateCell → Bool
  | .empty => false
  | .wellFormed _ => true
  | .malformed s => !s.isEmpty

/-- `new Date(cell)`: a well-formed cell gives its date, an unparsable
string gives Invalid Date (`none`).  (`new Date(null)` gives the epoch;
the code only applies this to truthy cells.) -/
def DateCell.newDate : DateCell → DateVal
  | .empty => some ⟨0, 0⟩
  | .wellFormed d => some d
  | .malformed _ => none

/-- `isRecordValid(validFrom, validTill)` from `src/Webapp.gs`: today is
normalized to midnight; if `validFrom` is truthy and its midnight is after
today, return false; if `validTill` is truthy and its midnight is before
today, return false; otherwise true.  The ambient `new Date()` clock is the
explicit parameter `now`. -/
def isRecordValid (validFrom validTill : DateCell) (now : JSDate) : Bool :=
  let today := setMidnight now
  if validFrom.truthy && dvGt (dvSetMidnight validFrom.newDate) (some today) then
    false
  else if validTill.truthy && dvLt (dvSetMidnight validTill.newDate) (some today) then
    false
  else
    true

/-- Embed an optional (well-formed) bound as a date cell: `none` is a blank
cell, `some d` a well-formed date. -/
def cellOfOpt : Option JSDate → DateCell
  | none => .empty
  | some d => .wellFormed d

/-- One row of the MASTER sheet, keyed by its header names, as produced by
`getMasterSheetData`.  `Content` is a string; a null or blank cell is the
empty string (falsy in JS). -/
structure MasterRow where
  Group : String
  Record_Type : String
  Record_Name : String
  Valid_From : DateCell
  Valid_Till : DateCell
  Content : String
deriving DecidableEq, Repr

/-- The filter applied by `handleGetPrograms`: a PROGRAM row valid now. -/
def isValidProgramRow (now : JSDate) (row : MasterRow) : Bool :=
  row.Record_Type == "PROGRAM" && isRecordValid row.Valid_From row.Valid_Till now

/-- The filter applied by `handleVerifyEmail` when locating the REGISTER
row: group matches the program, type is REGISTER, and the row is valid. -/
def isValidRegisterFor (program : String) (now : JSDate) (row : MasterRow) : Bool :=
  row.Group == program && row.Record_Type == "REGISTER" &&
    isRecordValid row.Valid_From row.Valid_Till now

/-- The filter applied by `handleVerifyEmail` when locating the REGFORM
row. -/
def isValidRegFormFor (program : String) (now : JSDate) (row : MasterRow) : Bool :=
  row.Group == program && row.Record_Type == "REGFORM" &&
    isRecordValid row.Valid_From row.Valid_Till now

/-- The filter applied by `handleGetRequests`: group matches, type is
REQUEST, and the row is valid. -/
def isValidRequestFor (program : String) (now : JSDate) (row : MasterRow) : Bool :=
  row.Group == program && row.Record_Type == "REQUEST" &&
    isRecordValid row.Valid_From row.Valid_Till now

/-- The `forEach`-push loop of `handleGetPrograms`: collect `Record_Name`
of every valid PROGRAM row, in table order. -/
def listPrograms (rows : List MasterRow) (now : JSDate) : List String :=
  rows.foldl
    (fun programs row =>
      if isValidProgramRow now row then programs ++ [row.Record_Name] else programs)
    []

/-- The `forEach`-push loop of `handleGetRequests`: collect `Record_Name`
of every valid REQUEST row for the program, in table order. -/
def listRequests (rows : List MasterRow) (program : String) (now : JSDate) : List String :=
  rows.foldl
    (fun requests row =>
      if isValidRequestFor program now row then requests ++ [row.Record_Name] else requests)
    []

/-- The `forEach` reassignment loop of `handleVerifyEmail` that locates
`registerRecord`: each matching row overwrites the accumulator, so the last
matching row in table order wins. -/
def findRegister (rows : List MasterRow) (program : String) (now : JSDate) : Option MasterRow :=
  rows.foldl
    (fun registerRecord row =>
      if isValidRegisterFor program now row then some row else registerRecord)
    none

/-- The `forEach` reassignment loop of `handleVerifyEmail` that computes
`regFormUrl` from the REGFORM rows: the last matching row's `Content`
wins. -/
def findRegFormUrl (rows : List MasterRow) (program : String) (now : JSDate) : Option String :=
  rows.foldl
    (fun regFormUrl row =>
      if isValidRegFormFor program now row then some row.Content else regFormUrl)
    none

/-- A character accepted by the sheet-id capture group `[a-zA-Z0-9-_]`. -/
def isIdChar (c : Char) : Bool :=
  (c ≥ 'a' && c ≤ 'z') || (c ≥ 'A' && c ≤ 'Z') || (c ≥ '0' && c ≤ '9') || c == '-' || c == '_'

/-- Match a literal pattern at the head of a character list, returning the
remainder on success. -/
def dropLit : List Char → List Char → Option (List Char)
  | [], s => some s
  | _ :: _, [] => none
  | p :: ps, c :: cs => if p == c then dropLit ps cs else none

/-- Scan of `url.match(/\/spreadsheets\/d\/([a-zA-Z0-9-_]+)/)`: at each
position, try to match the literal `/spreadsheets/d/` followed by at least
one id character; capture the maximal id-character run at the first
position where the whole pattern matches. -/
def extractSheetIdAux : List Char → Option String
  | [] => none
  | c :: rest =>
    match dropLit "/spreadsheets/d/".toList (c :: rest) with
    | some after =>
      let run := after.takeWhile isIdChar
      if run.isEmpty then extractSheetIdAux rest else some (String.mk run)
    | none => extractSheetIdAux rest

/-- `extractSheetId(url)` from `src/Webapp.gs`: first regex match of
`/spreadsheets/d/{ID}` in the URL, or `none`.  A null URL is the empty
string, on which the scan finds nothing. -/
def extractSheetId (url : String) : Option String :=
  extractSheetIdAux url.toList

/-- ASCII lower-casing of one character, as `toLowerCase()` acts on the
ASCII range relevant to email addresses. -/
def lowerChar (c : Char) : Char :=
  if 'A' ≤ c && c ≤ 'Z' then Char.ofNat (c.toNat + 32) else c

/-- JS `s.toLowerCase()`. -/
def jsToLower (s : String) : String := String.mk (s.data.map lowerChar)

/-- JS `s.trim()`: strip leading and trailing whitespace. -/
def jsTrim (s : String) : String :=
  String.mk (((s.data.dropWhile Char.isWhitespace).reverse.dropWhile Char.isWhitespace).reverse)

/-- `checkEmailInSheet(sheetId, email)` from `src/Webapp.gs`.  The fetch of
the external sheet's first tab is passed in as its outcome: `Except.error`
when `openById`/`getValues` throws, otherwise the stringified first-column
cells including the header row.  A thrown fetch is caught and reported as
`false`; otherwise the loop from row 1 compares each cell, lower-cased and
trimmed, against the lower-cased, trimmed email. -/
def checkEmailInSheet (fetched : Except String (List String)) (email : String) : Bool :=
  match fetched with
  | .error _ => false
  | .ok colA =>
    let emailLower := jsTrim (jsToLower email)
    (colA.drop 1).any fun cell => jsTrim (jsToLower cell) == emailLower

/-- A JSON response of the backend, by shape: `failure m` is
`{success:false, message:m}`; the others are the `success:true` payloads of
the four handlers. -/
inductive Response where
  | failure (message : String)
  | programs (programs : List String)
  | registered
  | notRegistered (registrationUrl : Option String)
  | requests (requests : List String)
  | submitted (message : String)
deriving DecidableEq, Repr

/-- `regFormUrl || null`: an empty-string URL (falsy) is sent as null. -/
def jsOrNull : Option String → Option String
  | none => none
  | some s => if s.isEmpty then none else some s

/-- `handleGetPrograms` from `src/Webapp.gs`.  The master-sheet read is
passed as its outcome (`Except.error` when `getMasterSheetData` throws);
the catch block turns a thrown read into a failure response. -/
def handleGetPrograms (master : Except String (List MasterRow)) (now : JSDate) : Response :=
  match master with
  | .error m => .failure ("Error loading programs: " ++ m)
  | .ok rows => .programs (listPrograms rows now)

/-- `handleVerifyEmail(program, email)` from `src/Webapp.gs`.  `fetchSheet`
gives the outcome of fetching a registration sheet by id.  Undefined
request parameters arrive as the empty string (both are falsy). -/
def handleVerifyEmail (master : Except String (List MasterRow))
    (fetchSheet : String → Except String (List String))
    (program email : String) (now : JSDate) : Response :=
  if program.isEmpty || email.isEmpty then
    .failure "Program and email are required"
  else
    match master with
    | .error m => .failure ("Error verifying email: " ++ m)
    | .ok rows =>
      match findRegister rows program now with
      | none => .failure "Registration sheet not found for this program"
      | some registerRecord =>
        if registerRecord.Content.isEmpty then
          .failure "Registration sheet not found for this program"
        else
          match extractSheetId registerRecord.Content with
          | none => .failure "Invalid registration sheet URL"
          | some sheetId =>
            if checkEmailInSheet (fetchSheet sheetId) email then
              .registered
            else
              .notRegistered (jsOrNull (findRegFormUrl rows program now))

/-- `handleGetRequests(program)` from `src/Webapp.gs`. -/
def handleGetRequests (master : Except String (List MasterRow))
    (program : String) (now : JSDate) : Response :=
  if program.isEmpty then
    .failure "Program is required"
  else
    match master with
    | .error m => .failure ("Error loading requests: " ++ m)
    | .ok rows => .requests (listRequests rows program now)

/-- `verifyRecaptcha(token)` from `src/Webapp.gs`: a missing or empty token
fails immediately; otherwise the external siteverify round-trip (including
the score-vs-threshold comparison and its catch block) is the oracle's
verdict. -/
def verifyRecaptcha (oracle : String → Bool) : Option String → Bool
  | none => false
  | some t => if t.isEmpty then false else oracle t

/-- One row appended to the `NewPortalRequests` output sheet:
`[timestamp, program, email, requests.join(', ')]`. -/
structure OutputRow where
  timestamp : JSDate
  program : String
  email : String
  requestsText : String
deriving DecidableEq, Repr

/-- `handleSubmitRequest(program, email, requests, recaptchaToken)` from
`src/Webapp.gs`.  The second component of the result is the list of rows
appended to the output sheet by this call. -/
def handleSubmitRequest (recaptcha : String → Bool) (outputSheetExists : Bool)
    (now : JSDate) (program email : String) (requests : List String)
    (recaptchaToken : Option String) : Response × List OutputRow :=
  if program.isEmpty || email.isEmpty || requests.isEmpty then
    (.failure "All fields are required", [])
  else if !verifyRecaptcha recaptcha recaptchaToken then
    (.failure "Security verification failed. Please try again.", [])
  else if !outputSheetExists then
    (.failure "Output sheet not found", [])
  else
    (.submitted "Request submitted successfully",
      [⟨now, program, email, String.intercalate ", " requests⟩])

/-- The external world of one request: the master-sheet read outcome, the
registration-sheet fetcher, the reCAPTCHA oracle, whether the output sheet
exists, and the clock. -/
structure World where
  master : Except String (List MasterRow)
  fetchSheet : String → Except String (List String)
  recaptcha : String → Bool
  outputSheetExists : Bool
  now : JSDate

/-- The request parameters `e.parameter` of `doPost`: a missing form field
is `none` (undefined).  `requests` is the value after the
`Array.isArray` coercion in `doPost` (absent field gives `[]`, a single
string gives a one-element list). -/
structure Params where
  honey : Option String
  action : Option String
  program : Option String
  email : Option String
  requests : List String
  recaptchaToken : Option String

/-- First-some choice on options: the first argument wins when present.
Used to state what the reassignment loops compute. -/
def orElseOpt {β : Type _} : Option β → Option β → Option β
  | some x, _ => some x
  | none, acc => acc

/-- JS truthiness of an optional string parameter: present and non-empty.
`e.parameter.honey && e.parameter.honey.length > 0` is exactly this. -/
def truthyParam : Option String → Bool
  | none => false
  | some s => !s.isEmpty

/-- `doPost(e)` from `src/Webapp.gs`: honeypot check, then action
dispatch.  Returns the JSON response and the rows appended to the output
sheet during the call. -/
def doPost (w : World) (e : Params) : Response × List OutputRow :=
  if truthyParam e.honey then
    (.failure "Submission blocked", [])
  else if !truthyParam e.action then
    (.failure "Missing action parameter", [])
  else
    let action := e.action.getD ""
    if action == "getPrograms" then
      (handleGetPrograms w.master w.now, [])
    else if action == "verifyEmail" then
      (handleVerifyEmail w.master w.fetchSheet (e.program.getD "") (e.email.getD "") w.now, [])
    else if action == "getRequests" then
      (handleGetRequests w.master (e.program.getD "") w.now, [])
    else if action == "submitRequest" then
      handleSubmitRequest w.recaptcha w.outputSheetExists w.now
        (e.program.getD "") (e.email.getD "") e.requests e.recaptchaToken
    else
      (.failure ("Unknown action: " ++ action), [])

/-- A concrete world for witnesses: empty master table, empty external
sheets, always-passing reCAPTCHA, output sheet present. -/
def demoWorld : World where
  master := Except.ok []
  fetchSheet := fun _ => Except.ok []
  recaptcha := fun _ => true
  outputSheetExists := true
  now := ⟨20000, 0⟩

/-- A submission with the honeypot filled and all other fields valid. -/
def honeyParams : Params where
  honey := some "bot"
  action := some "submitRequest"
  program := some "P1"
  email := some "x@y.com"
  requests := ["A"]
  recaptchaToken := some "tok"

/-- A concrete unbounded REQUEST row for group G1, used by witnesses. -/
def reqRowA : MasterRow where
  Group := "G1"
  Record_Type := "REQUEST"
  Record_Name := "A"
  Valid_From := DateCell.empty
  Valid_Till := DateCell.empty
  Content := ""

end Portal

namespace Portal

theorem orElseOpt_none_right {β : Type _} (o : Option β) : orElseOpt o none = o := by
  cases o <;> rfl

theorem getLast?_cons_eq {α : Type _} (a : α) (l : List α) :
    (a :: l).getLast? = orElseOpt l.getLast? (some a) := by
  induction l generalizing a with
  | nil => rfl
  | cons b m ih =>
    rw [List.getLast?_cons_cons, ih b]
    cases m.getLast? <;> rfl

theorem foldl_lastWins_id {α : Type _} (p : α → Bool) (l : List α) (acc : Option α) :
    l.foldl (fun a r => if p r then some r else a) acc =
      orElseOpt (l.filter p).getLast? acc := by
  induction l generalizing acc with
  | nil => rfl
  | cons r rs ih =>
    rw [List.foldl_cons, ih]
    cases hp : p r
    · simp [List.filter_cons, hp]
    · rw [List.filter_cons, if_pos hp, getLast?_cons_eq]
      cases (rs.filter p).getLast? <;> simp [orElseOpt]

theorem foldl_lastWins_map {α β : Type _} (p : α → Bool) (f : α → β) (l : List α)
    (acc : Option β) :
    l.foldl (fun a r => if p r then some (f r) else a) acc =
      orElseOpt ((l.filter p).getLast?.map f) acc := by
  induction l generalizing acc with
  | nil => rfl
  | cons r rs ih =>
    rw [List.foldl_cons, ih]
    cases hp : p r
    · simp [List.filter_cons, hp]
    · rw [List.filter_cons, if_pos hp, getLast?_cons_eq]
      cases (rs.filter p).getLast? <;> simp [orElseOpt]

theorem foldl_push {α β : Type _} (p : α → Bool) (f : α → β) (l : List α) (acc : List β) :
    l.foldl (fun a r => if p r then a ++ [f r] else a) acc = acc ++ (l.filter p).map f := by
  induction l generalizing acc with
  | nil => simp
  | cons r rs ih =>
    cases hp : p r <;> simp [List.filter_cons, hp, List.foldl_cons, ih]

theorem listPrograms_eq (rows : List MasterRow) (now : JSDate) :
    listPrograms rows now =
      (rows.filter (isValidProgramRow now)).map MasterRow.Record_Name := by
  have h := foldl_push (isValidProgramRow now) MasterRow.Record_Name rows []
  simpa [listPrograms] using h

theorem listRequests_eq (rows : List MasterRow) (program : String) (now : JSDate) :
    listRequests rows program now =
      (rows.filter (isValidRequestFor program now)).map MasterRow.Record_Name := by
  have h := foldl_push (isValidRequestFor program now) MasterRow.Record_Name rows []
  simpa [listRequests] using h

theorem findRegister_eq (rows : List MasterRow) (program : String) (now : JSDate) :
    findRegister rows program now =
      (rows.filter (isValidRegisterFor program now)).getLast? := by
  have h := foldl_lastWins_id (isValidRegisterFor program now) rows none
  simpa [findRegister, orElseOpt_none_right] using h

theorem findRegFormUrl_eq (rows : List MasterRow) (program : String) (now : JSDate) :
    findRegFormUrl rows program now =
      ((rows.filter (isValidRegFormFor program now)).getLast?).map MasterRow.Content := by
  have h := foldl_lastWins_map (isValidRegFormFor program now) MasterRow.Content rows none
  simpa [findRegFormUrl, orElseOpt_none_right] using h

theorem count_map_filter {α β : Type _} [BEq β] [LawfulBEq β] (p : α → Bool) (f : α → β)
    (l : List α) (b : β) :
    ((l.filter p).map f).count b = (l.filter fun a => p a && f a == b).length := by
  induction l with
  | nil => rfl
  | cons a l ih =>
    cases hp : p a
    · simp [List.filter_cons, hp, ih]
    · cases hb : f a == b <;>
        simp [List.filter_cons, hp, hb, List.count_cons, ih]

/-- C1: isRecordValid is true iff (validFrom absent or validFrom ≤ D) and
(validTill absent or validTill ≥ D), at day granularity after midnight
normalization; in particular both bounds absent gives true for every D. -/
theorem C1_isRecordValid_matches_window (vf vt : Option JSDate) (D : JSDate) :
    (isRecordValid (cellOfOpt vf) (cellOfOpt vt) D = true ↔
      ((∀ f ∈ vf, (setMidnight f).day ≤ (setMidnight D).day) ∧
       (∀ t ∈ vt, (setMidnight D).day ≤ (setMidnight t).day))) ∧
    isRecordValid (cellOfOpt none) (cellOfOpt none) D = true := by
  constructor
  · cases vf <;> cases vt <;>
      simp [isRecordValid, cellOfOpt, DateCell.truthy, DateCell.newDate,
        dvGt, dvLt, dvSetMidnight, jdLtB, setMidnight, Int.not_lt]
  · simp [isRecordValid, cellOfOpt, DateCell.truthy]

/-- C2: when several REGISTER (or REGFORM) rows for the group are valid at
today, `handleVerifyEmail`'s resolver picks the last valid one in table
order: its `registerRecord` loop computes the last element of the filtered
table, and its `regFormUrl` loop the content of the last valid REGFORM
row. -/
theorem C2_last_valid_row_wins (rows : List MasterRow) (program : String) (now : JSDate) :
    findRegister rows program now =
      (rows.filter (isValidRegisterFor program now)).getLast? ∧
    findRegFormUrl rows program now =
      ((rows.filter (isValidRegFormFor program now)).getLast?).map MasterRow.Content :=
  ⟨findRegister_eq rows program now, findRegFormUrl_eq rows program now⟩

/-- C3: the email check skips the header row and returns true exactly when
some data row's first cell equals the email after lower-casing and trimming
both sides; in particular the query with trailing blank and upper case
matches the stored lower-case address. -/
theorem C3_email_scan_characterization (colA : List String) (email : String) :
    (checkEmailInSheet (Except.ok colA) email = true ↔
      ∃ cell ∈ colA.drop 1, jsTrim (jsToLower cell) = jsTrim (jsToLower email)) ∧
    checkEmailInSheet (Except.ok ["Email", "a@b.com"]) "A@B.com " = true := by
  constructor
  · simp [checkEmailInSheet, List.any_eq_true]
  · rfl

/-- C4: a failed fetch of the external registration list is caught and
reported as false (not registered), and a verification call with an
unreachable external list never reports the email as registered; it
degrades rather than hard-failing. -/
theorem C4_fetch_failure_degrades (err email : String) :
    checkEmailInSheet (Except.error err) email = false ∧
    ∀ (rows : List MasterRow) (program : String) (now : JSDate),
      handleVerifyEmail (Except.ok rows) (fun _ => Except.error err) program email now ≠
        Response.registered := by
  refine ⟨rfl, ?_⟩
  intro rows program now
  unfold handleVerifyEmail
  split
  · simp
  · split
    · simp
    · split
      · simp
      · split
        · simp
        · split
          · simp
          · simp [checkEmailInSheet]

/-- C5: a present, non-empty honeypot field short-circuits doPost to the
generic failure response, with no output-sheet append, for every world and
every other parameter value. -/
theorem C5_honeypot_short_circuit (w : World) (e : Params)
    (h : truthyParam e.honey = true) :
    doPost w e = (Response.failure "Submission blocked", []) := by
  simp [doPost, h]

theorem C5_honeypot_short_circuit_witness :
    truthyParam honeyParams.honey = true ∧
    doPost demoWorld honeyParams = (Response.failure "Submission blocked", []) :=
  ⟨rfl, C5_honeypot_short_circuit demoWorld honeyParams rfl⟩

/-- C6 counterexample: with a reCAPTCHA oracle that fails every token, a
submission whose fields are all empty is answered by the field-validation
failure message, not the security-verification one: the precondition
validation runs and decides the response even though the anti-spam score
fails, so the anti-spam check does not happen strictly before the
validation. -/
theorem C6_validation_runs_first_counterexample :
    verifyRecaptcha (fun _ => false) (some "token") = false ∧
    handleSubmitRequest (fun _ => false) true ⟨20000, 0⟩ "" "" [] (some "token") =
      (Response.failure "All fields are required", []) ∧
    Response.failure "All fields are required" ≠
      Response.failure "Security verification failed. Please try again." :=
  ⟨rfl, rfl, by decide⟩

/-- C6 amended: the precondition validation happens strictly before the
anti-spam scoring check (when the score fails, a failed validation still
wins the response), and every submission whose anti-spam score fails is
short-circuited with a failure response and no output-sheet append. -/
theorem C6_failed_score_short_circuits (recaptcha : String → Bool)
    (outputSheetExists : Bool) (now : JSDate) (program email : String)
    (requests : List String) (token : Option String)
    (hfail : verifyRecaptcha recaptcha token = false) :
    handleSubmitRequest recaptcha outputSheetExists now program email requests token =
      ((if program.isEmpty || email.isEmpty || requests.isEmpty then
          Response.failure "All fields are required"
        else
          Response.failure "Security verification failed. Please try again."), []) := by
  unfold handleSubmitRequest
  cases h : (program.isEmpty || email.isEmpty || requests.isEmpty) <;> simp [h, hfail]

theorem C6_failed_score_short_circuits_witness :
    verifyRecaptcha (fun _ => false) (some "tok") = false ∧
    handleSubmitRequest (fun _ => false) true ⟨20000, 0⟩ "P1" "x@y.com" ["A"] (some "tok") =
      ((if ("P1" : String).isEmpty || ("x@y.com" : String).isEmpty ||
            (["A"] : List String).isEmpty then
          Response.failure "All fields are required"
        else
          Response.failure "Security verification failed. Please try again."), []) :=
  ⟨rfl, C6_failed_score_short_circuits (fun _ => false) true ⟨20000, 0⟩ "P1" "x@y.com"
    ["A"] (some "tok") rfl⟩

/-- C7 counterexample: with an empty program, a non-empty email and a
master table with no valid REGISTER record, `handleVerifyEmail` fails with
the missing-field message, not the RegistrationSheetNotFound one, so the
claim fails for the empty program. -/
theorem C7_empty_program_counterexample :
    handleVerifyEmail (Except.ok []) (fun _ => Except.ok []) "" "x@y.com" ⟨20000, 0⟩ =
      Response.failure "Program and email are required" ∧
    Response.failure "Program and email are required" ≠
      Response.failure "Registration sheet not found for this program" :=
  ⟨rfl, by decide⟩

/-- C7 amended: for every non-empty program and non-empty email, if no
REGISTER record for the program is valid today, or the last valid one has
an empty content field, `handleVerifyEmail` fails with the
registration-sheet-not-found response. -/
theorem C7_missing_register_fails (rows : List MasterRow)
    (fetchSheet : String → Except String (List String))
    (program email : String) (now : JSDate)
    (hp : program.isEmpty = false) (he : email.isEmpty = false)
    (h : (∀ r ∈ rows, isValidRegisterFor program now r = false) ∨
         ∃ r, (rows.filter (isValidRegisterFor program now)).getLast? = some r ∧
           r.Content.isEmpty = true) :
    handleVerifyEmail (Except.ok rows) fetchSheet program email now =
      Response.failure "Registration sheet not found for this program" := by
  have hfind := findRegister_eq rows program now
  rcases h with h | ⟨r, hr, hc⟩
  · have hnil : rows.filter (isValidRegisterFor program now) = [] := by
      rw [List.filter_eq_nil_iff]
      intro a ha
      simp [h a ha]
    rw [hnil] at hfind
    simp [handleVerifyEmail, hp, he, hfind]
  · rw [hr] at hfind
    simp [handleVerifyEmail, hp, he, hfind, hc]

theorem C7_missing_register_fails_witness :
    (("P1" : String).isEmpty = false ∧ ("x@y.com" : String).isEmpty = false ∧
      ∀ r ∈ ([] : List MasterRow), isValidRegisterFor "P1" ⟨20000, 0⟩ r = false) ∧
    handleVerifyEmail (Except.ok []) (fun _ => Except.ok []) "P1" "x@y.com" ⟨20000, 0⟩ =
      Response.failure "Registration sheet not found for this program" :=
  ⟨⟨rfl, rfl, by simp⟩,
    C7_missing_register_fails [] (fun _ => Except.ok []) "P1" "x@y.com" ⟨20000, 0⟩ rfl rfl
      (Or.inl (by simp))⟩

/-- C8: getPrograms answers with exactly the names of the PROGRAM rows
valid today, in table order, as a success response (also when empty), and
each name occurs as many times as there are valid PROGRAM rows carrying it
(no deduplication, and no contribution from rows whose window excludes
today). -/
theorem C8_programs_exact (rows : List MasterRow) (now : JSDate) :
    handleGetPrograms (Except.ok rows) now =
      Response.programs ((rows.filter (isValidProgramRow now)).map MasterRow.Record_Name) ∧
    ∀ name : String,
      (listPrograms rows now).count name =
        (rows.filter fun r => isValidProgramRow now r && r.Record_Name == name).length := by
  constructor
  · simp [handleGetPrograms, listPrograms_eq]
  · intro name
    rw [listPrograms_eq]
    exact count_map_filter (isValidProgramRow now) MasterRow.Record_Name rows name

/-- C10: for a non-empty program, getRequests answers with the valid
REQUEST rows whose group equals the program, without consulting PROGRAM
rows at all: deleting every PROGRAM row from the table leaves the response
unchanged, so a group naming no (or only an expired) PROGRAM still yields
its REQUEST rows as a success response. -/
theorem C10_requests_ignore_programs (rows : List MasterRow) (program : String)
    (now : JSDate) (hp : program.isEmpty = false) :
    handleGetRequests (Except.ok rows) program now =
      Response.requests ((rows.filter (isValidRequestFor program now)).map MasterRow.Record_Name) ∧
    handleGetRequests (Except.ok (rows.filter fun r => !(r.Record_Type == "PROGRAM")))
        program now =
      handleGetRequests (Except.ok rows) program now := by
  have hpoint : ∀ r : MasterRow,
      (isValidRequestFor program now r && !(r.Record_Type == "PROGRAM")) =
        isValidRequestFor program now r := by
    intro r
    cases hprog : (r.Record_Type == "PROGRAM")
    · simp
    · have hPr : r.Record_Type = "PROGRAM" := by simpa using hprog
      simp [isValidRequestFor, hPr]
  constructor
  · simp [handleGetRequests, hp, listRequests_eq]
  · simp only [handleGetRequests, hp, Bool.false_eq_true, if_false, listRequests_eq]
    rw [List.filter_filter]
    simp only [hpoint]

theorem C10_requests_ignore_programs_witness :
    ("G1" : String).isEmpty = false ∧
    handleGetRequests (Except.ok [reqRowA]) "G1" ⟨20000, 0⟩ =
      Response.requests
        (([reqRowA].filter (isValidRequestFor "G1" ⟨20000, 0⟩)).map MasterRow.Record_Name) ∧
    handleGetRequests (Except.ok ([reqRowA].filter fun r => !(r.Record_Type == "PROGRAM")))
        "G1" ⟨20000, 0⟩ =
      handleGetRequests (Except.ok [reqRowA]) "G1" ⟨20000, 0⟩ := by
  refine ⟨rfl, ?_, ?_⟩
  · exact (C10_requests_ignore_programs [reqRowA] "G1" ⟨20000, 0⟩ rfl).1
  · exact (C10_requests_ignore_programs [reqRowA] "G1" ⟨20000, 0⟩ rfl).2

/-- C9 counterexample: a non-empty unparsable date string in Valid_From
does not produce an error: the record is treated as valid (NaN comparisons
are false in JS, so a malformed bound never excludes a record), directly
contradicting the claim that the record is not treated as valid. -/
theorem C9_malformed_date_counterexample :
    isRecordValid (DateCell.malformed "not-a-date") DateCell.empty ⟨20000, 0⟩ = true := rfl

/-- C9 amended: malformed date strings are silently ignored: for every
malformed bound combination and every date, `isRecordValid` returns true
without any error; no ParseError path exists in the code. -/
theorem C9_malformed_dates_treated_valid (s t : String) (D : JSDate) :
    isRecordValid (DateCell.malformed s) (DateCell.malformed t) D = true ∧
    isRecordValid (DateCell.malformed s) DateCell.empty D = true ∧
    isRecordValid DateCell.empty (DateCell.malformed t) D = true := by
  refine ⟨?_, ?_, ?_⟩ <;>
    simp [isRecordValid, DateCell.truthy, DateCell.newDate, dvGt, dvLt, dvSetMidnight]

end Portal
